import Mathlib

/-!
Verification of the Flashcards repository's scheduling core against its
natural-language specification.

The development shallowly embeds `src/smart_review.py` (the `SmartReview`
class) and `src/card_manager.py` (the `CardManager` class).  Machine floats
are modelled as `Rat` (the float literal `1.2` becomes `6/5`; `NaN` values,
which no settled property depends on, are modelled as `0` via division's
junk value).  Wall-clock datetimes are epoch seconds (`Int`).  The sklearn
collaborators (`StandardScaler.transform`, fitted `RandomForestRegressor`
prediction) are external libraries, passed in as opaque function parameters;
the fitted scaler and regressor are represented by the data they were fit
on, exactly as the Python object state determines them.  Potentially
non-terminating mutual recursion between `_load_history` and `train_model`
is made total with an explicit fuel counter: `Res.diverge` for all fuel
values models a Python `RecursionError`, `Res.fail` models an uncaught
exception, `Res.ok` a normal return.
-/

namespace Flashcards

abbrev Vec := List Rat
abbrev Mat := List (List Rat)

deriving instance DecidableEq for Except

/-- One parsed data row of `flashcard_history.csv` (see `save_game_history`
in `src/main.py` for the producer): the `Timestamp`, `Set`, `Score`,
`Total` columns plus the sparse per-card outcome cells.  `ts = none`
models a `Timestamp` cell that `pd.to_datetime` cannot parse; an absent or
`none` entry in `cells` models a blank (NaN) outcome cell.  The
`Accuracy` column is informational only and never read back, so it is not
modelled. -/
structure Row where
  ts : Option Int
  setName : String
  score : Int
  total : Int
  cells : List (String × Option Int)
deriving DecidableEq, Inhabited

/-- A loaded history DataFrame: the card-word columns (all header columns
beyond the five fixed ones) and the data rows. -/
structure DataFrame where
  cardCols : List String
  rows : List Row
deriving DecidableEq, Inhabited

/-- The five fixed columns of the history CSV. -/
def fixedCols : List String := ["Timestamp", "Set", "Score", "Total", "Accuracy"]

/-- The outcome cell `df[w]` of a row for a card-word column `w`
(`none` = NaN / blank / column absent). -/
def cellOf (df : DataFrame) (r : Row) (w : String) : Option Int :=
  if df.cardCols.contains w then (r.cells.lookup w).join else none

/-- `df['Timestamp'] = pd.to_datetime(df['Timestamp'])` in
`SmartReview._load_history`: raises (returns `none`) as soon as any row's
timestamp is unparseable — offending rows are NOT skipped. -/
def parseTimestamps (df : DataFrame) : Option DataFrame :=
  if df.rows.all (fun r => r.ts.isSome) then some df else none

/-- Timestamp of a row after a successful `parseTimestamps` (the `getD` is
never hit on parsed frames). -/
def tsOf (r : Row) : Int := r.ts.getD 0

/-- The mutable state of a `SmartReview` instance.  The fitted scaler and
regressor are represented by the data they were fit on: `model = some (Xs, y)`
corresponds to `self.model` being a `RandomForestRegressor` fit on the
scaled matrix `Xs` with targets `y`; `scalerFit = some X` corresponds to
`self.scaler` having been fit on `X`; `none` is the fresh/absent object. -/
structure SRState where
  model : Option (Mat × Vec)
  scalerFit : Option Mat
  min_data_points : Nat
  last_training_size : Nat
  model_version : Nat
deriving DecidableEq, Inhabited

/-- The state established by `SmartReview.__init__` just before its
`self.load_model()` call: no model, fresh scaler, `min_data_points = 10`,
`last_training_size = 0`, `model_version = 1`. -/
def initSR : SRState :=
  { model := none, scalerFit := none, min_data_points := 10,
    last_training_size := 0, model_version := 1 }

/-- `self.base_intervals = [0, 24, 72, 168, 336, 672, 1344]` (hours). -/
def baseIntervals : List Nat := [0, 24, 72, 168, 336, 672, 1344]

/-- `self.base_intervals[min(current_level, len(self.base_intervals) - 1)]`,
the Leitner ladder fallback delay used in `get_next_review_time`. -/
def ladderDelay (level : Nat) : Nat :=
  baseIntervals.getD (min level (baseIntervals.length - 1)) 0

/-- `SmartReview._should_train_model`: empty history never trains;
otherwise train iff the model is absent, or the history has at least
`min_data_points` rows and grew by more than 20% over the last training
size (the float literal `1.2` modelled as the rational `6/5`). -/
def shouldTrainModel (df : DataFrame) (s : SRState) : Bool :=
  if df.rows.isEmpty then false
  else
    s.model.isNone ||
      (decide (s.min_data_points ≤ df.rows.length) &&
       decide ((s.last_training_size : Rat) * (6/5) < (df.rows.length : Rat)))

/-- `np.mean` / `pandas.Series.mean` over rationals; the empty list yields
`0/0 = 0`, the junk stand-in for NaN (no settled property reads it). -/
def ratMean (l : List Rat) : Rat := l.sum / (l.length : Rat)

/-- `datetime.now().hour`, modelled from epoch seconds. -/
def hourOfDay (now : Int) : Int := now / 3600 % 24

/-- `datetime.now().weekday()`, modelled from epoch seconds. -/
def dayOfWeek (now : Int) : Int := now / 86400 % 7

/-- `SmartReview._extract_features`.  Mirrors the source order: the empty
check, then the column access `history_df[card_word]` (a KeyError when the
word has no column), then the fewer-than-2-rows check, then the fixed
eight-entry feature tuple in dict insertion order.  Querying one of the
five fixed metadata columns makes the Python compute statistics over that
metadata column (a TypeError for the string-valued ones); no settled
property depends on that path and it is modelled as an error. -/
def extractFeatures (now : Int) (df : DataFrame) (cardWord setName : String) :
    Except String (Option Vec) :=
  if df.rows.isEmpty then .ok none
  else if df.cardCols.contains cardWord then
    let ch := df.rows.filter (fun r => (cellOf df r cardWord).isSome)
    if ch.length < 2 then .ok none
    else
      let outs : List Rat := ch.filterMap (fun r => (cellOf df r cardWord).map (fun v => (v : Rat)))
      let lastTs : Int := tsOf (ch.getLastD default)
      let diffs : List Rat :=
        (ch.zip (ch.drop 1)).map (fun p => ((tsOf p.2 - tsOf p.1 : Int) : Rat) / 3600)
      let setRows := df.rows.filter (fun r => r.setName == setName)
      .ok (some [
        ratMean outs,
        ratMean (outs.drop (outs.length - 3)),
        (ch.length : Rat),
        ((hourOfDay now : Int) : Rat),
        ((dayOfWeek now : Int) : Rat),
        ((now - lastTs : Int) : Rat) / 3600,
        ratMean diffs,
        ratMean (setRows.map (fun r => (r.score : Rat))) /
          ratMean (setRows.map (fun r => (r.total : Rat)))])
  else if fixedCols.contains cardWord then .error "fixed-column"
  else .error "KeyError"

/-- The `successful_intervals` accumulation inside
`SmartReview._prepare_training_data`: hour-gaps following rows where the
card was answered correctly, excluding non-positive gaps. -/
def successfulIntervals (df : DataFrame) (cardWord : String) : List Rat :=
  let ch := df.rows.filter (fun r => (cellOf df r cardWord).isSome)
  (List.range (ch.length - 1)).filterMap (fun i =>
    if cellOf df (ch.getD i default) cardWord == some 1 then
      let iv : Rat := ((tsOf (ch.getD (i + 1) default) - tsOf (ch.getD i default) : Int) : Rat) / 3600
      if 0 < iv then some iv else none
    else none)

/-- `history_df['Set'].unique()`: set names in order of first appearance. -/
def uniqueSets (df : DataFrame) : List String :=
  (df.rows.map Row.setName).foldl (fun acc x => if acc.contains x then acc else acc ++ [x]) []

/-- One iteration of the `(set_name, card)` loop of
`SmartReview._prepare_training_data`: skip when features are `None` or no
successful interval exists, otherwise append the feature vector and the
mean successful interval. -/
def ptStep (now : Int) (df : DataFrame) (acc : Mat × Vec) (p : String × String) :
    Except String (Mat × Vec) :=
  match extractFeatures now df p.2 p.1 with
  | .error e => .error e
  | .ok none => .ok acc
  | .ok (some feats) =>
    let si := successfulIntervals df p.2
    if si.isEmpty then .ok acc
    else .ok (acc.1 ++ [feats], acc.2 ++ [ratMean si])

/-- `SmartReview._prepare_training_data`: loop over every set name of the
history and every card column (the card list does not depend on the set). -/
def prepareTrainingData (now : Int) (df : DataFrame) : Except String (Mat × Vec) :=
  ((uniqueSets df).flatMap (fun sn => df.cardCols.map (fun c => (sn, c)))).foldlM
    (ptStep now df) ([], [])

/-- The external world of a `SmartReview` call: the wall clock and the
history file (`none` = `self.history_file` does not exist). -/
structure Env where
  now : Int
  history : Option DataFrame

/-- Outcome of a (possibly non-terminating) Python call: `diverge` is
unbounded recursion (a `RecursionError` — proved by showing the value for
every fuel), `fail` an uncaught exception, `ok` a normal return. -/
inductive Res (α : Type) where
  | diverge
  | fail (msg : String)
  | ok (val : α)
deriving DecidableEq

/-- The tail of `SmartReview.train_model` after its own `_load_history`
call has returned `df`: the empty check, `_prepare_training_data`, the
`min_data_points` gate, then `scaler.fit_transform`, the regressor fit,
`last_training_size`/`model_version` updates and the (external) artifact
dump. -/
def trainRest (scT : Mat → Vec → Vec) (now : Int) (s : SRState) (df : DataFrame) :
    Res (SRState × Bool) :=
  if df.rows.isEmpty then .ok (s, false)
  else
    match prepareTrainingData now df with
    | .error e => .fail e
    | .ok (X, y) =>
      if X.length < s.min_data_points then .ok (s, false)
      else
        .ok ({ s with
                scalerFit := some X,
                model := some (X.map (scT X), y),
                last_training_size := df.rows.length,
                model_version := s.model_version + 1 }, true)

/-- `SmartReview._load_history`.  Missing file gives the empty frame;
otherwise `pd.to_datetime` may raise; then, when `_should_train_model`
holds, `self.train_model()` runs inline — that call's own `_load_history`
is the recursive occurrence (at smaller fuel), followed by `trainRest`,
exactly the body of `train_model`. -/
def loadHistory (scT : Mat → Vec → Vec) : Nat → Env → SRState → Res (SRState × DataFrame)
  | 0, _, _ => .diverge
  | fuel + 1, env, s =>
    match env.history with
    | none => .ok (s, { cardCols := [], rows := [] })
    | some raw =>
      match parseTimestamps raw with
      | none => .fail "to_datetime"
      | some df =>
        if shouldTrainModel df s then
          match
            ((match loadHistory scT fuel env s with
              | .diverge => .diverge
              | .fail e => .fail e
              | .ok (s1, df1) => trainRest scT env.now s1 df1) : Res (SRState × Bool)) with
          | .diverge => .diverge
          | .fail e => .fail e
          | .ok (s2, _) => .ok (s2, df)
        else .ok (s, df)

/-- `SmartReview.train_model`: `_load_history`, then the training tail. -/
def trainModel (scT : Mat → Vec → Vec) (fuel : Nat) (env : Env) (s : SRState) :
    Res (SRState × Bool) :=
  match loadHistory scT fuel env s with
  | .diverge => .diverge
  | .fail e => .fail e
  | .ok (s1, df1) => trainRest scT env.now s1 df1

/-- `max(1, self.model.predict(X_scaled)[0])`: the scaler transform of the
feature vector forwarded through the fitted regressor, floored at 1 hour. -/
def predictedHours (rfP : Mat → Vec → Vec → Rat) (scT : Mat → Vec → Vec)
    (fitData : Mat) (Xs : Mat) (y : Vec) (feats : Vec) : Rat :=
  max 1 (rfP Xs y (scT fitData feats))

/-- `SmartReview.get_next_review_time`, returning the recommended next
review moment in epoch seconds (as a rational, since the predicted delay
is fractional-hours).  Falls back to the Leitner ladder when features are
`None` or the model is absent; `transform` on a never-fitted scaler would
raise (`NotFitted`), which no reachable trained state triggers. -/
def getNextReviewTime (scT : Mat → Vec → Vec) (rfP : Mat → Vec → Vec → Rat)
    (fuel : Nat) (env : Env) (s : SRState) (cardWord setName : String) (level : Nat) :
    Res (SRState × Rat) :=
  match loadHistory scT fuel env s with
  | .diverge => .diverge
  | .fail e => .fail e
  | .ok (s1, df) =>
    match extractFeatures env.now df cardWord setName with
    | .error e => .fail e
    | .ok feats? =>
      match feats?, s1.model with
      | some feats, some my =>
        match s1.scalerFit with
        | none => .fail "NotFitted"
        | some fd =>
          .ok (s1, (env.now : Rat) + predictedHours rfP scT fd my.1 my.2 feats * 3600)
      | _, _ =>
        .ok (s1, (env.now : Rat) + (ladderDelay level : Rat) * 3600)

/-- The row filter of `SmartReview.update_card_level`:
`card_word in row.index and pd.notna(row[card_word])`.  A row's index is
the frame's full column list, so one of the five fixed columns always
passes (its cell — a parsed timestamp, the set name, the score, the
total, the accuracy string — is never NaN); a card column passes when its
cell is non-blank. -/
def rowMentions (df : DataFrame) (r : Row) (w : String) : Bool :=
  if fixedCols.contains w then true
  else df.cardCols.contains w && (cellOf df r w).isSome

/-- `SmartReview.update_card_level`: empty history gives level 1/0;
otherwise the level is recomputed as the count of rows of this set
mentioning the card, bumped or dropped and clamped (Python's
`max(0, current_level - 1)` is truncated `Nat` subtraction here). -/
def updateCardLevel (scT : Mat → Vec → Vec) (fuel : Nat) (env : Env) (s : SRState)
    (cardWord setName : String) (correct : Bool) : Res (SRState × Nat) :=
  match loadHistory scT fuel env s with
  | .diverge => .diverge
  | .fail e => .fail e
  | .ok (s1, df) =>
    if df.rows.isEmpty then .ok (s1, if correct then 1 else 0)
    else
      let ch := df.rows.filter (fun r => r.setName == setName && rowMentions df r cardWord)
      let currentLevel := ch.length
      if correct then .ok (s1, min (currentLevel + 1) (baseIntervals.length - 1))
      else .ok (s1, currentLevel - 1)

/-- The `model_metadata.json` document as `load_model` reads it: each key
access can raise `KeyError`, so both fields are optional. -/
structure MetaDoc where
  version? : Option Nat
  lastTrainingSize? : Option Nat

/-- A persisted file: absent, present-but-unreadable (`json.load` or
`joblib.load` raises), or readable content. -/
inductive FileContent (α : Type) where
  | missing
  | corrupt
  | valid (content : α)

/-- The persisted model directory: the metadata document and, per version
number, the `model_v{n}.joblib` / `model_v{n}_scaler.joblib` pair
(regressor data and scaler data; `missing` = the model file does not
exist, `corrupt` = a load raises). -/
structure Persisted where
  metadata : FileContent MetaDoc
  artifact : Nat → FileContent ((Mat × Vec) × Mat)

/-- The artifact phase of `SmartReview.load_model`: look up the model file
at the current `model_version`; absent means a bare `return False`;
a raising load resets model, version and size; success installs both
objects. -/
def loadArtifacts (p : Persisted) (s : SRState) : SRState × Bool :=
  match p.artifact s.model_version with
  | .missing => (s, false)
  | .corrupt => ({ s with model := none, model_version := 0, last_training_size := 0 }, false)
  | .valid a => ({ s with model := some a.1, scalerFit := some a.2 }, true)

/-- `SmartReview.load_model`.  The metadata phase: a missing file is
skipped, an unreadable one returns `False` with nothing assigned, a
readable one assigns `version` then `last_training_size` (each a possible
`KeyError`, returning `False` with whatever was already assigned).  Then
the artifact phase.  Totality of this function reflects the bare
`except:` handlers: no exception escapes `load_model`. -/
def loadModel (p : Persisted) (s : SRState) : SRState × Bool :=
  match p.metadata with
  | .missing => loadArtifacts p s
  | .corrupt => (s, false)
  | .valid d =>
    match d.version? with
    | none => (s, false)
    | some v =>
      match d.lastTrainingSize? with
      | none => ({ s with model_version := v }, false)
      | some l => loadArtifacts p { s with model_version := v, last_training_size := l }

/-!
Embedding of `src/card_manager.py` (`CardManager`).  Python dicts become
partial maps `String → Option α`; the three per-set dicts and the
top-level `card_sets` dict are such maps.  Each operation returns the new
state, its Boolean return value, and whether `_save_card_sets` ran
(`update_card_schedule`, which returns `None`, is reported as `true`).
The `del d[word]` statements of `remove_card`/`edit_card` would raise
`KeyError` on a word present in `cards` but absent from `card_levels` or
`next_reviews`; no state reachable through the public operations has such
a word (the invariant proved below), and the map erasure is the
corresponding total embedding. -/

/-- One flashcard set: description plus the three per-word dicts. -/
structure SetInfo where
  description : String
  cards : String → Option String
  card_levels : String → Option Nat
  next_reviews : String → Option String

/-- The in-memory `self.card_sets` dict. -/
abbrev CMState := String → Option SetInfo

/-- The fresh store (`_load_card_sets` with no JSON file). -/
def cmEmpty : CMState := fun _ => none

/-- Dict update/erase: `m[k] = v` (with `v = some _`) or `del m[k]`
(with `v = none`). -/
def mupd {β : Type} (m : String → Option β) (k : String) (v : Option β) :
    String → Option β :=
  fun k' => if k' = k then v else m k'

/-- The public mutating operations of `CardManager`.  `addCard` carries
the `datetime.now().isoformat()` string of the call moment;
`editCard`'s optional arguments are `none` for Python `None`. -/
inductive CMOp where
  | createSet (name description : String)
  | deleteSet (name : String)
  | addCard (name word answer nowIso : String)
  | removeCard (name word : String)
  | editCard (name word : String) (newWord newAnswer : Option String)
  | updateSchedule (name word nextReview : String) (level : Nat)

/-- Python truthiness of an optional string: `None` and `""` are falsy
(so `edit_card(..., new_word="")` takes the answer-only branch). -/
def truthy : Option String → Bool
  | none => false
  | some str => !(str == "")

/-- `CardManager.create_set`. -/
def createSet (st : CMState) (name description : String) : CMState × Bool × Bool :=
  match st name with
  | some _ => (st, false, false)
  | none =>
    (mupd st name (some { description := description, cards := fun _ => none,
                          card_levels := fun _ => none, next_reviews := fun _ => none }),
     true, true)

/-- `CardManager.delete_set`. -/
def deleteSet (st : CMState) (name : String) : CMState × Bool × Bool :=
  match st name with
  | none => (st, false, false)
  | some _ => (mupd st name none, true, true)

/-- `CardManager.add_card`: requires only that the set exist; an existing
word is overwritten in all three dicts, a new one initialised at level 0
and due now. -/
def addCard (st : CMState) (name word answer nowIso : String) : CMState × Bool × Bool :=
  match st name with
  | none => (st, false, false)
  | some si =>
    (mupd st name (some { si with
        cards := mupd si.cards word (some answer),
        card_levels := mupd si.card_levels word (some 0),
        next_reviews := mupd si.next_reviews word (some nowIso) }),
     true, true)

/-- `CardManager.remove_card`. -/
def removeCard (st : CMState) (name word : String) : CMState × Bool × Bool :=
  match st name with
  | none => (st, false, false)
  | some si =>
    if (si.cards word).isNone then (st, false, false)
    else
      (mupd st name (some { si with
          cards := mupd si.cards word none,
          card_levels := mupd si.card_levels word none,
          next_reviews := mupd si.next_reviews word none }),
       true, true)

/-- `CardManager.edit_card`: with a truthy `new_word` different from
`word`, the card data moves to the new key (the answer replaced only when
`new_answer` is truthy) and the old key is deleted from all three dicts;
otherwise a truthy `new_answer` replaces the answer in place; either way
the store is saved and `True` returned. -/
def editCard (st : CMState) (name word : String) (newWord newAnswer : Option String) :
    CMState × Bool × Bool :=
  match st name with
  | none => (st, false, false)
  | some si =>
    if (si.cards word).isNone then (st, false, false)
    else
      if truthy newWord && (newWord.getD "" != word) then
        let nw := newWord.getD ""
        let ans := if truthy newAnswer then newAnswer.getD "" else (si.cards word).getD ""
        (mupd st name (some { si with
            cards := mupd (mupd si.cards nw (some ans)) word none,
            card_levels := mupd (mupd si.card_levels nw (some ((si.card_levels word).getD 0))) word none,
            next_reviews := mupd (mupd si.next_reviews nw (some ((si.next_reviews word).getD ""))) word none }),
         true, true)
      else if truthy newAnswer then
        (mupd st name (some { si with cards := mupd si.cards word (some (newAnswer.getD "")) }),
         true, true)
      else (st, true, true)

/-- `CardManager.update_card_schedule`: guarded in-place update of the
schedule and level; the Python returns `None` (reported as `true` here). -/
def updateSchedule (st : CMState) (name word nextReview : String) (level : Nat) :
    CMState × Bool × Bool :=
  match st name with
  | none => (st, true, false)
  | some si =>
    if (si.cards word).isNone then (st, true, false)
    else
      (mupd st name (some { si with
          next_reviews := mupd si.next_reviews word (some nextReview),
          card_levels := mupd si.card_levels word (some level) }),
       true, true)

/-- Dispatch one public operation. -/
def applyCMOp (op : CMOp) (st : CMState) : CMState × Bool × Bool :=
  match op with
  | .createSet n d => createSet st n d
  | .deleteSet n => deleteSet st n
  | .addCard n w a t => addCard st n w a t
  | .removeCard n w => removeCard st n w
  | .editCard n w nw na => editCard st n w nw na
  | .updateSchedule n w nr l => updateSchedule st n w nr l

/-- Run a sequence of public operations from a starting store. -/
def applyCMOps (ops : List CMOp) (st : CMState) : CMState :=
  ops.foldl (fun acc op => (applyCMOp op acc).1) st

/-- The three per-set dicts index exactly the same words. -/
def sameKeys (si : SetInfo) : Prop :=
  ∀ w, ((si.cards w).isSome ↔ (si.card_levels w).isSome) ∧
       ((si.cards w).isSome ↔ (si.next_reviews w).isSome)

/-- Every stored set satisfies `sameKeys`. -/
def cmInv (st : CMState) : Prop :=
  ∀ name si, st name = some si → sameKeys si

/-!
Concrete fixtures used by counterexamples and witnesses.
-/

/-- A concrete stand-in for the sklearn scaler transform (identity). -/
def scT0 : Mat → Vec → Vec := fun _ v => v

/-- A concrete stand-in for the fitted-regressor forward pass. -/
def rfP0 : Mat → Vec → Vec → Rat := fun _ _ _ => 0

/-- A one-row history: set `"A"`, card `"cat"` answered correctly at epoch 0. -/
def dfOne : DataFrame :=
  { cardCols := ["cat"],
    rows := [{ ts := some 0, setName := "A", score := 1, total := 1,
               cells := [("cat", some 1)] }] }

/-- Environment whose history file holds `dfOne`. -/
def envOne : Env := { now := 3600, history := some dfOne }

/-- A trained-looking state under which `_should_train_model` is `False`
on small histories (model present, history far below `min_data_points`). -/
def sTrained : SRState :=
  { model := some ([], []), scalerFit := some [], min_data_points := 10,
    last_training_size := 0, model_version := 1 }

/-- A one-row history whose `Timestamp` cell is unparseable. -/
def dfBadTs : DataFrame :=
  { cardCols := ["cat"],
    rows := [{ ts := none, setName := "A", score := 1, total := 1,
               cells := [("cat", some 1)] }] }

/-- Environment whose history file holds `dfBadTs`. -/
def envBadTs : Env := { now := 3600, history := some dfBadTs }

/-- Ten card columns for the training fixture. -/
def tenCards : List String :=
  ["c0", "c1", "c2", "c3", "c4", "c5", "c6", "c7", "c8", "c9"]

/-- A two-session history of set `"A"`: all ten cards answered correctly
at epoch 0 and again 100 hours later, yielding ten training samples (one
per card), each with the successful interval 100h. -/
def dfTen : DataFrame :=
  { cardCols := tenCards,
    rows := [
      { ts := some 0, setName := "A", score := 10, total := 10,
        cells := tenCards.map (fun c => (c, some 1)) },
      { ts := some 360000, setName := "A", score := 10, total := 10,
        cells := tenCards.map (fun c => (c, some 1)) }] }

/-- Environment whose history file holds `dfTen`. -/
def envTen : Env := { now := 360000, history := some dfTen }

/-- A state from which `train_model` proceeds without the inline
auto-retrain firing (model present, `len(df) = 2 < min_data_points`). -/
def sTen : SRState :=
  { model := some ([], []), scalerFit := some [], min_data_points := 10,
    last_training_size := 2, model_version := 5 }

/-- The Boolean return value of a completed `train_model` call. -/
def resBool (r : Res (SRState × Bool)) : Option Bool :=
  match r with
  | .ok v => some v.2
  | _ => none

/-- The `SmartReview` state after a completed `train_model` call. -/
def resState (r : Res (SRState × Bool)) : Option SRState :=
  match r with
  | .ok v => some v.1
  | _ => none

/-- The feature vector `dfTen` yields for each of its ten cards at
`now = 360000`: average success 1, recent success 1, 2 reviews, hour 4,
weekday 4, 0 hours since the last review, mean interval 100h, set
average accuracy 1. -/
def featTen : Vec := [1, 1, 2, 4, 4, 0, 100, 1]

/-- The state produced by a first successful `train_model` run on `dfTen`
from `sTen` (ten identical samples with target 100h; version bumped to 6). -/
def sTenTrained : SRState :=
  { model := some (List.replicate 10 featTen, List.replicate 10 100),
    scalerFit := some (List.replicate 10 featTen),
    min_data_points := 10, last_training_size := 2, model_version := 6 }

/-!
Claim theorems.
-/

/-- Auxiliary for claim C1: with the predictor untrained (`model is None`)
and a non-empty history file, `_load_history` never returns, at any
recursion depth — `_should_train_model` is `True`, `train_model` re-enters
`_load_history` before any state changes, and the trigger is `True`
again. -/
theorem loadHistory_untrained_diverges (scT : Mat → Vec → Vec) :
    ∀ fuel : Nat, loadHistory scT fuel envOne initSR = .diverge := by
  intro fuel
  induction fuel with
  | zero => rfl
  | succ fuel ih =>
    simp only [loadHistory]
    rw [ih]
    rfl

/-- Claim C1: the claim states that `get_next_review_time` always runs to
completion and returns a timestamp.  Refuted at a concrete input: with an
untrained predictor and a one-row history, `_load_history` and
`train_model` recurse into each other unboundedly (no fuel suffices), so
the Python raises `RecursionError` and aborts the caller's flow instead
of returning a timestamp. -/
theorem claim_C1_untrained_scheduling_diverges :
    ∀ (scT : Mat → Vec → Vec) (rfP : Mat → Vec → Vec → Rat) (fuel level : Nat),
      getNextReviewTime scT rfP fuel envOne initSR "cat" "A" level = .diverge := by
  intro scT rfP fuel level
  unfold getNextReviewTime
  rw [loadHistory_untrained_diverges scT fuel]

/-- Claim C4: the claim states that a row with an unparseable timestamp is
skipped.  Refuted on the code: `pd.to_datetime(df['Timestamp'])` raises on
such a row, aborting `_load_history` and with it every scheduling call,
whatever the predictor state. -/
theorem claim_C4_malformed_row_aborts :
    ∀ (scT : Mat → Vec → Vec) (rfP : Mat → Vec → Vec → Rat) (fuel level : Nat)
      (s : SRState),
      getNextReviewTime scT rfP (fuel + 1) envBadTs s "cat" "A" level =
        .fail "to_datetime" := by
  intro scT rfP fuel level s
  rfl

/-- Claim C6: the ladder fallback delay matches the table
`[0, 24, 72, 168, 336, 672, 1344]` at index `L` for in-range levels and
clamps to the top entry `1344` for every `L` at or beyond the last
index. -/
theorem claim_C6_ladder_clamp :
    ∀ L : Nat,
      (6 ≤ L → ladderDelay L = 1344) ∧
      (L < 7 → ladderDelay L = baseIntervals.getD L 0) := by
  intro L
  constructor
  · intro h
    have hmin : min L (baseIntervals.length - 1) = 6 := by
      show min L 6 = 6
      omega
    unfold ladderDelay
    rw [hmin]
    rfl
  · intro h
    have hmin : min L (baseIntervals.length - 1) = L := by
      show min L 6 = L
      omega
    unfold ladderDelay
    rw [hmin]

/-- Witness for claim C6 at the concrete levels 10 (clamped) and 3. -/
theorem claim_C6_witness :
    (6 ≤ 10 ∧ ladderDelay 10 = 1344) ∧ (3 < 7 ∧ ladderDelay 3 = baseIntervals.getD 3 0) :=
  ⟨⟨by decide, (claim_C6_ladder_clamp 10).1 (by decide)⟩,
   ⟨by decide, (claim_C6_ladder_clamp 3).2 (by decide)⟩⟩

/-- Claim C7: on the predict path the returned delay
`max(1, model.predict(X_scaled)[0])` is at least one hour, for every
scaler transform, every fitted regressor and every feature vector. -/
theorem claim_C7_predict_floor :
    ∀ (rfP : Mat → Vec → Vec → Rat) (scT : Mat → Vec → Vec)
      (fitData Xs : Mat) (y feats : Vec),
      1 ≤ predictedHours rfP scT fitData Xs y feats := by
  intro rfP scT fitData Xs y feats
  exact le_max_left 1 _

/-- Auxiliary for claim C2: when the history file does not exist,
`get_next_review_time` completes in one `_load_history` step and returns
the Leitner ladder time, whatever the predictor state (the empty frame
yields `features is None`, so the fallback branch runs). -/
theorem getNextReviewTime_no_history (scT : Mat → Vec → Vec) (rfP : Mat → Vec → Vec → Rat)
    (fuel level : Nat) (env : Env) (s : SRState) (cardWord setName : String)
    (h : env.history = none) :
    getNextReviewTime scT rfP (fuel + 1) env s cardWord setName level =
      .ok (s, (env.now : Rat) + (ladderDelay level : Rat) * 3600) := by
  unfold getNextReviewTime loadHistory
  rw [h]
  rfl

/-- A persisted configuration with metadata and every artifact missing. -/
def pMissing : Persisted := { metadata := .missing, artifact := fun _ => .missing }

/-- A persisted configuration whose metadata reads fine (version 3, last
training size 7) but whose artifact files are unreadable. -/
def pCorrupt : Persisted :=
  { metadata := .valid { version? := some 3, lastTrainingSize? := some 7 },
    artifact := fun _ => .corrupt }

/-- Environment with no history file. -/
def envNoHist : Env := { now := 0, history := none }

/-- Auxiliary for claim C2: when the artifact phase of `load_model`
returns `False`, the model object is what it was before (missing-file
branch) or reset to `None` (unreadable branch) — in particular, starting
untrained it stays untrained. -/
theorem loadArtifacts_fail_model (p : Persisted) (s : SRState) (hs : s.model = none)
    (hfail : (loadArtifacts p s).2 = false) : (loadArtifacts p s).1.model = none := by
  unfold loadArtifacts at hfail ⊢
  revert hfail
  cases p.artifact s.model_version with
  | missing => intro _; exact hs
  | corrupt => intro _; rfl
  | valid a => intro hfail; exact Bool.noConfusion hfail

/-- Auxiliary for claim C2: an unreadable artifact at the current version
resets the model, version counter and last-training size. -/
theorem loadArtifacts_corrupt (p : Persisted) (s : SRState)
    (h : p.artifact s.model_version = .corrupt) :
    loadArtifacts p s =
      ({ s with model := none, model_version := 0, last_training_size := 0 }, false) := by
  unfold loadArtifacts
  rw [h]

/-- Claim C2 counterexample: with the metadata document and all model
artifacts missing — a configuration the claim covers — `load_model` on a
fresh instance returns `False` and leaves the predictor untrained, but
the version counter stays at its initial value 1, not the claimed 0. -/
theorem claim_C2_counterexample :
    (loadModel pMissing initSR).2 = false ∧
    (loadModel pMissing initSR).1.model = none ∧
    (loadModel pMissing initSR).1.model_version = 1 ∧
    ¬ (loadModel pMissing initSR).1.model_version = 0 := by
  refine ⟨rfl, rfl, rfl, ?_⟩
  decide

/-- Claim C2 (amended): `load_model` never raises; on any failing load of
an initially-untrained instance the predictor stays UNTRAINED; the version
counter and last-training size are reset to 0 exactly in the branch where
the artifact at the metadata's version exists but is unreadable (in the
other failure configurations the version keeps its prior or
metadata-supplied value); and a subsequent scheduling call with no
history file succeeds with the Leitner ladder delay. -/
theorem claim_C2_load_failure_untrained :
    ∀ (p : Persisted) (s : SRState), s.model = none →
      ((loadModel p s).2 = false → (loadModel p s).1.model = none) ∧
      (∀ v l : Nat, p.metadata = .valid { version? := some v, lastTrainingSize? := some l } →
        p.artifact v = .corrupt →
        (loadModel p s).1.model = none ∧ (loadModel p s).1.model_version = 0 ∧
        (loadModel p s).1.last_training_size = 0 ∧ (loadModel p s).2 = false) ∧
      (∀ (scT : Mat → Vec → Vec) (rfP : Mat → Vec → Vec → Rat) (fuel level : Nat)
         (env : Env) (cardWord setName : String), env.history = none →
        getNextReviewTime scT rfP (fuel + 1) env (loadModel p s).1 cardWord setName level =
          .ok ((loadModel p s).1, (env.now : Rat) + (ladderDelay level : Rat) * 3600)) := by
  intro p s hs
  refine ⟨?_, ?_, ?_⟩
  · intro hfail
    obtain ⟨md, art⟩ := p
    cases md with
    | missing => exact loadArtifacts_fail_model ⟨.missing, art⟩ s hs hfail
    | corrupt => exact hs
    | valid d =>
      obtain ⟨v?, l?⟩ := d
      cases v? with
      | none => exact hs
      | some v =>
        cases l? with
        | none => exact hs
        | some l =>
          exact loadArtifacts_fail_model ⟨.valid ⟨some v, some l⟩, art⟩
            { s with model_version := v, last_training_size := l } hs hfail
  · intro v l hm ha
    obtain ⟨md, art⟩ := p
    have hmd : md = .valid { version? := some v, lastTrainingSize? := some l } := hm
    subst hmd
    have hred : loadModel ⟨.valid ⟨some v, some l⟩, art⟩ s =
        ({ s with model := none, model_version := 0, last_training_size := 0 }, false) :=
      loadArtifacts_corrupt ⟨.valid ⟨some v, some l⟩, art⟩
        { s with model_version := v, last_training_size := l } ha
    rw [hred]
    exact ⟨rfl, rfl, rfl, rfl⟩
  · intro scT rfP fuel level env cardWord setName h
    exact getNextReviewTime_no_history scT rfP fuel level env _ cardWord setName h

/-- Witness for claim C2 at the corrupt-artifact configuration and a
missing history file. -/
theorem claim_C2_witness :
    ((loadModel pCorrupt initSR).1.model = none ∧
     (loadModel pCorrupt initSR).1.model_version = 0 ∧
     (loadModel pCorrupt initSR).1.last_training_size = 0 ∧
     (loadModel pCorrupt initSR).2 = false) ∧
    getNextReviewTime scT0 rfP0 1 envNoHist (loadModel pCorrupt initSR).1 "cat" "A" 2 =
      .ok ((loadModel pCorrupt initSR).1, (envNoHist.now : Rat) + (ladderDelay 2 : Rat) * 3600) :=
  ⟨(claim_C2_load_failure_untrained pCorrupt initSR rfl).2.1 3 7 rfl rfl,
   (claim_C2_load_failure_untrained pCorrupt initSR rfl).2.2 scT0 rfP0 0 2 envNoHist "cat" "A" rfl⟩

/-- Modelled from the claim's words (refinement side of C5): the number of
history rows mentioning a given `(card, set)` pair, i.e. rows of that set
with a recorded (non-blank) outcome for that card. -/
def claimPriorCount (df : DataFrame) (cardWord setName : String) : Nat :=
  (df.rows.filter (fun r => r.setName == setName && (cellOf df r cardWord).isSome)).length

/-- Auxiliary for claim C5: for a card word that is not one of the five
fixed CSV columns, the `update_card_level` row filter agrees with
"has a recorded outcome for the card". -/
theorem cellOf_of_no_column (df : DataFrame) (r : Row) (w : String)
    (h : df.cardCols.contains w = false) : cellOf df r w = none := by
  unfold cellOf
  rw [h]
  simp

theorem rowMentions_of_not_fixed (df : DataFrame) (r : Row) (w : String)
    (h : fixedCols.contains w = false) :
    rowMentions df r w = (cellOf df r w).isSome := by
  unfold rowMentions
  rw [h]
  simp only [Bool.false_eq_true, if_false]
  cases hc : df.cardCols.contains w with
  | true => simp [hc]
  | false => rw [cellOf_of_no_column df r w hc]; simp [hc]

/-- Claim C5 counterexample: the claim's level formula fails for a card
named after a fixed CSV column.  For the card word `"Set"` (never
reviewed, so the claim's prior count is 0 and it predicts level 1 on a
correct answer), the code counts every row of the set — the `Set` column
is in every row's index and never NaN — and returns level 2 on the
one-row history. -/
theorem claim_C5_counterexample :
    updateCardLevel scT0 1 envOne sTrained "Set" "A" true = .ok (sTrained, 2) ∧
    min (claimPriorCount dfOne "Set" "A" + 1) 6 = 1 := by
  constructor
  · with_unfolding_all decide
  · with_unfolding_all decide

/-- Claim C5 (amended): whenever `_load_history` completes (the inline
auto-retrain does not hang the call) and the card word does not collide
with one of the five fixed CSV columns, `update_card_level` returns
`min(prior_count + 1, 6)` on a correct answer and `max(prior_count - 1, 0)`
(truncated subtraction) on an incorrect one, where `prior_count` is the
number of history rows mentioning the `(card, set)` pair; with an empty
history it returns 1 or 0. -/
theorem claim_C5_level_formula :
    ∀ (scT : Mat → Vec → Vec) (fuel : Nat) (env : Env) (s s₁ : SRState) (df : DataFrame)
      (cardWord setName : String) (correct : Bool),
      loadHistory scT fuel env s = .ok (s₁, df) →
      fixedCols.contains cardWord = false →
      updateCardLevel scT fuel env s cardWord setName correct =
        .ok (s₁, if df.rows.isEmpty then (if correct then 1 else 0)
                 else if correct then min (claimPriorCount df cardWord setName + 1) 6
                 else claimPriorCount df cardWord setName - 1) := by
  intro scT fuel env s s₁ df cardWord setName correct hlh hfix
  unfold updateCardLevel
  rw [hlh]
  have hfilter :
      df.rows.filter (fun r => r.setName == setName && rowMentions df r cardWord) =
      df.rows.filter (fun r => r.setName == setName && (cellOf df r cardWord).isSome) := by
    apply List.filter_congr
    intro r _
    rw [rowMentions_of_not_fixed df r cardWord hfix]
  by_cases hemp : df.rows.isEmpty
  · simp only [hemp, if_true]
  · simp only [hemp, if_false]
    cases correct with
    | true => simp only [if_true, hfilter]; rfl
    | false => simp only [if_false, hfilter]; rfl

/-- Witness for claim C5 at the one-row history and the ordinary card
word `"cat"`. -/
theorem claim_C5_witness :
    updateCardLevel scT0 1 envOne sTrained "cat" "A" true =
      .ok (sTrained, if dfOne.rows.isEmpty then (if true then 1 else 0)
               else if true then min (claimPriorCount dfOne "cat" "A" + 1) 6
               else claimPriorCount dfOne "cat" "A" - 1) :=
  claim_C5_level_formula scT0 1 envOne sTrained sTrained dfOne "cat" "A" true
    (by with_unfolding_all decide) (by decide)

/-- Does a `_extract_features` outcome carry the feature tuple? -/
def returnsFeatureTuple (e : Except String (Option Vec)) : Bool :=
  match e with
  | .ok (some _) => true
  | _ => false

/-- Claim C8 counterexample: for a card with no column in a non-empty
history — zero rows record an outcome for it, squarely inside the
claim's "fewer than 2" case — `history_df[card_word]` raises `KeyError`
instead of returning `None`. -/
theorem claim_C8_counterexample :
    extractFeatures 0 dfOne "dog" "A" = .error "KeyError" ∧
    ¬ extractFeatures 0 dfOne "dog" "A" = .ok none := by
  constructor
  · with_unfolding_all decide
  · with_unfolding_all decide

/-- Claim C8 (amended): `_extract_features` returns `None` on an empty
history for any card, and, for a card that has a column, returns `None`
exactly when fewer than 2 rows record an outcome for it and the feature
tuple exactly when at least 2 do; but for a card with no column in a
non-empty history it raises `KeyError` instead of returning `None`. -/
theorem claim_C8_insufficient_rows :
    ∀ (now : Int) (df : DataFrame) (cardWord setName : String),
      (df.rows.isEmpty = true → extractFeatures now df cardWord setName = .ok none) ∧
      (df.cardCols.contains cardWord = true →
        (extractFeatures now df cardWord setName = .ok none ↔
          (df.rows.filter (fun r => (cellOf df r cardWord).isSome)).length < 2) ∧
        (returnsFeatureTuple (extractFeatures now df cardWord setName) = true ↔
          2 ≤ (df.rows.filter (fun r => (cellOf df r cardWord).isSome)).length)) ∧
      (df.rows.isEmpty = false → df.cardCols.contains cardWord = false →
        fixedCols.contains cardWord = false →
        extractFeatures now df cardWord setName = .error "KeyError") := by
  intro now df cardWord setName
  refine ⟨?_, ?_, ?_⟩
  · intro hemp
    unfold extractFeatures
    rw [hemp]
    rfl
  · intro hcol
    unfold extractFeatures
    by_cases hemp : df.rows.isEmpty
    · have hlen : (df.rows.filter (fun r => (cellOf df r cardWord).isSome)).length = 0 := by
        rw [List.isEmpty_iff] at hemp
        rw [hemp]
        rfl
      rw [hemp]
      simp [hlen, returnsFeatureTuple]
    · rw [if_neg (by simp [hemp]), hcol]
      by_cases hlt : (df.rows.filter (fun r => (cellOf df r cardWord).isSome)).length < 2
      · rw [if_pos hlt]
        simp [hlt, returnsFeatureTuple]
        try omega
      · rw [if_neg hlt]
        simp [hlt, returnsFeatureTuple]
        try omega
  · intro hemp hcol hfix
    unfold extractFeatures
    rw [if_neg (by simp [hemp]), hcol, hfix]
    rfl

/-- Witness for claim C8 at the one-row history and its card `"cat"`. -/
theorem claim_C8_witness :
    (extractFeatures 0 dfOne "cat" "A" = .ok none ↔
      (dfOne.rows.filter (fun r => (cellOf dfOne r "cat").isSome)).length < 2) ∧
    (returnsFeatureTuple (extractFeatures 0 dfOne "cat" "A") = true ↔
      2 ≤ (dfOne.rows.filter (fun r => (cellOf dfOne r "cat").isSome)).length) :=
  (claim_C8_insufficient_rows 0 dfOne "cat" "A").2.1 rfl

/-- Auxiliary for claim C3: a completed `_load_history` on an existing,
parseable history file hands back exactly the parsed frame. -/
theorem loadHistory_ok_df (scT : Mat → Vec → Vec) (fuel : Nat) (env : Env) (s s' : SRState)
    (d raw df : DataFrame) (h : loadHistory scT fuel env s = .ok (s', d))
    (hraw : env.history = some raw) (hparse : parseTimestamps raw = some df) : d = df := by
  cases fuel with
  | zero => exact Res.noConfusion h
  | succ fuel =>
    unfold loadHistory at h
    rw [hraw] at h
    simp only [hparse] at h
    split at h
    · split at h
      · exact Res.noConfusion h
      · exact Res.noConfusion h
      · simp only [Res.ok.injEq, Prod.mk.injEq] at h
        exact h.2.symm
    · simp only [Res.ok.injEq, Prod.mk.injEq] at h
      exact h.2.symm

/-- Auxiliary for claim C3: a `train_model` tail that returns `True` has
installed a model and recorded the full history length as the last
training size (and the history was non-empty). -/
theorem trainRest_ok_true (scT : Mat → Vec → Vec) (now : Int) (s s₁ : SRState)
    (df : DataFrame) (h : trainRest scT now s df = .ok (s₁, true)) :
    s₁.model.isSome = true ∧ s₁.last_training_size = df.rows.length ∧
      df.rows.isEmpty = false := by
  unfold trainRest at h
  split at h
  · simp at h
  · rename_i hemp
    split at h
    · exact Res.noConfusion h
    · rename_i X y
      split at h
      · simp at h
      · simp only [Res.ok.injEq, Prod.mk.injEq] at h
        obtain ⟨hs, _⟩ := h
        subst hs
        refine ⟨rfl, rfl, ?_⟩
        simpa using hemp

/-- Auxiliary for claim C3: once a model is installed and the last
training size equals the current history length, `_should_train_model`
is `False` — the history did not grow past `last_training_size * 1.2`. -/
theorem shouldTrain_after_fit (df : DataFrame) (s : SRState)
    (hm : s.model.isSome = true) (hlts : s.last_training_size = df.rows.length) :
    shouldTrainModel df s = false := by
  unfold shouldTrainModel
  by_cases hemp : df.rows.isEmpty
  · rw [if_pos hemp]
  · rw [if_neg hemp]
    have h1 : s.model.isNone = false := by
      cases hmod : s.model with
      | none => rw [hmod] at hm; exact Bool.noConfusion hm
      | some m => rfl
    rw [h1]
    have h2 : decide ((s.last_training_size : Rat) * (6/5) < (df.rows.length : Rat)) = false := by
      rw [hlts]
      simp only [decide_eq_false_iff_not]
      intro hcon
      have hnn : (0 : Rat) ≤ (df.rows.length : Rat) := Nat.cast_nonneg _
      linarith
    rw [h2, Bool.and_false, Bool.false_or]

set_option maxRecDepth 2000 in
/-- Claim C3 counterexample: the claim states a second `train_model`
invocation on the unchanged history is skipped with no version bump.  On
the concrete ten-sample history `dfTen`, a first call trains successfully
(version 5 becomes 6) and a second call on the identical history trains
AGAIN, bumping the version to 7 — `train_model` itself never consults
`_should_train_model`. -/
theorem claim_C3_counterexample :
    resBool (trainModel scT0 2 envTen sTen) = some true ∧
    resState (trainModel scT0 2 envTen sTen) = some sTenTrained ∧
    resBool (trainModel scT0 2 envTen sTenTrained) = some true ∧
    (resState (trainModel scT0 2 envTen sTenTrained)).map SRState.model_version =
      some (sTenTrained.model_version + 1) := by
  refine ⟨?_, ?_, ?_, ?_⟩ <;> with_unfolding_all decide

/-- Claim C3 (amended): after a successful `train_model` run on a given
history, the inline auto-retrain trigger is indeed off — on the unchanged
history `_should_train_model` returns `False` (size did not grow beyond
the 1.2x threshold and the model is installed), so a history read for
scheduling returns at once without retraining.  (A direct `train_model`
call is NOT skipped: see the counterexample.) -/
theorem claim_C3_auto_retrain_skipped :
    ∀ (scT : Mat → Vec → Vec) (fuel fuel₂ : Nat) (env : Env) (s s₁ : SRState)
      (raw df : DataFrame),
      trainModel scT fuel env s = .ok (s₁, true) →
      env.history = some raw →
      parseTimestamps raw = some df →
      shouldTrainModel df s₁ = false ∧
      loadHistory scT (fuel₂ + 1) env s₁ = .ok (s₁, df) := by
  intro scT fuel fuel₂ env s s₁ raw df htm hraw hparse
  unfold trainModel at htm
  cases hlh : loadHistory scT fuel env s with
  | diverge => rw [hlh] at htm; exact Res.noConfusion htm
  | fail e => rw [hlh] at htm; exact Res.noConfusion htm
  | ok p =>
    obtain ⟨s0, d0⟩ := p
    rw [hlh] at htm
    have hd0 : d0 = df := loadHistory_ok_df scT fuel env s s0 d0 raw df hlh hraw hparse
    subst hd0
    have hfit := trainRest_ok_true scT env.now s0 s₁ d0 htm
    have hst := shouldTrain_after_fit d0 s₁ hfit.1 hfit.2.1
    refine ⟨hst, ?_⟩
    unfold loadHistory
    rw [hraw]
    simp only [hparse, hst]
    rfl

set_option maxRecDepth 2000 in
/-- Witness for claim C3: the first successful training on `dfTen`
switches the trigger off and `_load_history` returns without retraining. -/
theorem claim_C3_witness :
    shouldTrainModel dfTen sTenTrained = false ∧
    loadHistory scT0 1 envTen sTenTrained = .ok (sTenTrained, dfTen) :=
  claim_C3_auto_retrain_skipped scT0 2 0 envTen sTen sTenTrained dfTen dfTen
    (by with_unfolding_all decide) rfl (by rfl)



/-- Key-presence of a dict after an update/erase. -/
theorem mupd_isSome {β : Type} (m : String → Option β) (k k' : String) (v : Option β) :
    ((mupd m k v) k').isSome = if k' = k then v.isSome else (m k').isSome := by
  unfold mupd
  split <;> rfl

/-- An option that is not `none` is `some`. -/
theorem isSome_of_not_isNone {β : Type} {o : Option β} (h : ¬ o.isNone = true) :
    o.isSome = true := by
  cases o with
  | none => exact absurd rfl h
  | some b => rfl

/-- Updating (or erasing) the same word in all three dicts with equally
present values preserves `sameKeys`. -/
theorem sameKeys_update3 (si : SetInfo) (w : String) (a : Option String) (l : Option Nat)
    (n : Option String) (hk : sameKeys si) (h1 : a.isSome = l.isSome)
    (h2 : a.isSome = n.isSome) :
    sameKeys { si with
      cards := mupd si.cards w a
      card_levels := mupd si.card_levels w l
      next_reviews := mupd si.next_reviews w n } := by
  intro w'
  constructor
  · simp only [mupd_isSome]
    by_cases hw : w' = w
    · simp [hw, h1]
    · simp only [hw, if_false]
      exact (hk w').1
  · simp only [mupd_isSome]
    by_cases hw : w' = w
    · simp [hw, h2]
    · simp only [hw, if_false]
      exact (hk w').2

/-- Overwriting the answer of an existing word preserves `sameKeys`. -/
theorem sameKeys_cards_set (si : SetInfo) (w ans : String) (hk : sameKeys si)
    (hw : (si.cards w).isSome = true) :
    sameKeys { si with cards := mupd si.cards w (some ans) } := by
  intro w'
  constructor
  · simp only [mupd_isSome]
    by_cases hww : w' = w
    · subst hww
      have h1 := (hk w').1
      rw [hw] at h1
      simp [← h1]
    · simp only [hww, if_false]
      exact (hk w').1
  · simp only [mupd_isSome]
    by_cases hww : w' = w
    · subst hww
      have h2 := (hk w').2
      rw [hw] at h2
      simp [← h2]
    · simp only [hww, if_false]
      exact (hk w').2

/-- Re-scheduling an existing word (level and next-review updated in
place) preserves `sameKeys`. -/
theorem sameKeys_sched (si : SetInfo) (w nr : String) (lvl : Nat) (hk : sameKeys si)
    (hw : (si.cards w).isSome = true) :
    sameKeys { si with
      next_reviews := mupd si.next_reviews w (some nr)
      card_levels := mupd si.card_levels w (some lvl) } := by
  intro w'
  constructor
  · simp only [mupd_isSome]
    by_cases hww : w' = w
    · simp [hww, hw]
    · simp only [hww, if_false]
      exact (hk w').1
  · simp only [mupd_isSome]
    by_cases hww : w' = w
    · simp [hww, hw]
    · simp only [hww, if_false]
      exact (hk w').2

/-- The top-level dict keeps the per-set invariant when a set is stored
whose three dicts have equal keys (or a set is deleted). -/
theorem cmInv_mupd (st : CMState) (n : String) (v : Option SetInfo) (h : cmInv st)
    (hv : ∀ si, v = some si → sameKeys si) : cmInv (mupd st n v) := by
  intro n' si' hs'
  simp only [mupd] at hs'
  by_cases hnn : n' = n
  · rw [if_pos hnn] at hs'
    exact hv si' hs'
  · rw [if_neg hnn] at hs'
    exact h n' si' hs'

/-- Every public `CardManager` operation preserves the three-dict key
invariant. -/
theorem cmInv_step (op : CMOp) (st : CMState) (h : cmInv st) : cmInv (applyCMOp op st).1 := by
  cases op with
  | createSet n d =>
    show cmInv (createSet st n d).1
    unfold createSet
    cases hn : st n with
    | some si => exact h
    | none =>
      refine cmInv_mupd st n _ h ?_
      intro si' hsi
      injection hsi with he
      subst he
      intro w
      exact ⟨Iff.rfl, Iff.rfl⟩
  | deleteSet n =>
    show cmInv (deleteSet st n).1
    unfold deleteSet
    cases hn : st n with
    | none => exact h
    | some si =>
      refine cmInv_mupd st n none h ?_
      intro si' hsi
      exact Option.noConfusion hsi
  | addCard n w a t =>
    show cmInv (addCard st n w a t).1
    unfold addCard
    cases hn : st n with
    | none => exact h
    | some si =>
      refine cmInv_mupd st n _ h ?_
      intro si' hsi
      injection hsi with he
      subst he
      exact sameKeys_update3 si w (some a) (some 0) (some t) (h n si hn) rfl rfl
  | removeCard n w =>
    show cmInv (removeCard st n w).1
    unfold removeCard
    cases hn : st n with
    | none => exact h
    | some si =>
      dsimp only
      by_cases hw : (si.cards w).isNone
      · rw [if_pos hw]
        exact h
      · rw [if_neg hw]
        refine cmInv_mupd st n _ h ?_
        intro si' hsi
        injection hsi with he
        subst he
        exact sameKeys_update3 si w none none none (h n si hn) rfl rfl
  | editCard n w nw na =>
    show cmInv (editCard st n w nw na).1
    unfold editCard
    cases hn : st n with
    | none => exact h
    | some si =>
      dsimp only
      by_cases hw : (si.cards w).isNone
      · rw [if_pos hw]
        exact h
      · rw [if_neg hw]
        by_cases hb : (truthy nw && (nw.getD "" != w)) = true
        · rw [if_pos hb]
          refine cmInv_mupd st n _ h ?_
          intro si' hsi
          injection hsi with he
          subst he
          exact sameKeys_update3 _ w none none none
            (sameKeys_update3 si (nw.getD "")
              (some (if truthy na then na.getD "" else (si.cards w).getD ""))
              (some ((si.card_levels w).getD 0))
              (some ((si.next_reviews w).getD "")) (h n si hn) rfl rfl) rfl rfl
        · rw [if_neg hb]
          by_cases hna : truthy na
          · rw [if_pos hna]
            refine cmInv_mupd st n _ h ?_
            intro si' hsi
            injection hsi with he
            subst he
            exact sameKeys_cards_set si w (na.getD "") (h n si hn) (isSome_of_not_isNone hw)
          · rw [if_neg hna]
            exact h
  | updateSchedule n w nr lvl =>
    show cmInv (updateSchedule st n w nr lvl).1
    unfold updateSchedule
    cases hn : st n with
    | none => exact h
    | some si =>
      dsimp only
      by_cases hw : (si.cards w).isNone
      · rw [if_pos hw]
        exact h
      · rw [if_neg hw]
        refine cmInv_mupd st n _ h ?_
        intro si' hsi
        injection hsi with he
        subst he
        exact sameKeys_sched si w nr lvl (h n si hn) (isSome_of_not_isNone hw)

/-- Claim C9: in every `CardManager` state reachable through the public
operations from the fresh store, each set's three dicts `cards`,
`card_levels` and `next_reviews` index exactly the same words. -/
theorem claim_C9_triple_key_invariant :
    ∀ ops : List CMOp, cmInv (applyCMOps ops cmEmpty) := by
  intro ops
  have hgen : ∀ st, cmInv st → cmInv (applyCMOps ops st) := by
    induction ops with
    | nil => intro st h; exact h
    | cons op rest ih =>
      intro st h
      exact ih ((applyCMOp op st).1) (cmInv_step op st h)
  refine hgen cmEmpty ?_
  intro n si hsi
  simp [cmEmpty] at hsi

/-- The five mutating operations the claim enumerates
(`update_card_schedule` returns `None`, not a Boolean, and is outside the
enumeration). -/
def listedMutator : CMOp → Prop
  | .updateSchedule _ _ _ _ => False
  | _ => True

/-- Modelled from the claim's words (refinement side of C10): the
per-operation failure precondition — `create_set`: the set already
exists; `delete_set`/`add_card`: the set does not exist;
`remove_card`/`edit_card`: the set or the word does not exist. -/
def specPrecondFails : CMOp → CMState → Prop
  | .createSet n _, st => (st n).isSome = true
  | .deleteSet n, st => st n = none
  | .addCard n _ _ _, st => st n = none
  | .removeCard n w, st =>
      (match st n with | none => True | some si => si.cards w = none)
  | .editCard n w _ _, st =>
      (match st n with | none => True | some si => si.cards w = none)
  | .updateSchedule _ _ _ _, _ => False

/-- Claim C10: each enumerated mutating operation returns `False` exactly
when its precondition fails, and in that case the in-memory store is
unchanged and `_save_card_sets` did not run. -/
theorem claim_C10_false_iff_precondition :
    ∀ (op : CMOp) (st : CMState), listedMutator op →
      ((applyCMOp op st).2.1 = false ↔ specPrecondFails op st) ∧
      ((applyCMOp op st).2.1 = false →
        (applyCMOp op st).1 = st ∧ (applyCMOp op st).2.2 = false) := by
  intro op st hl
  cases op with
  | createSet n d =>
    unfold applyCMOp createSet specPrecondFails
    cases hn : st n with
    | some si => simp [hn]
    | none => simp [hn]
  | deleteSet n =>
    unfold applyCMOp deleteSet specPrecondFails
    cases hn : st n with
    | some si => simp [hn]
    | none => simp [hn]
  | addCard n w a t =>
    unfold applyCMOp addCard specPrecondFails
    cases hn : st n with
    | some si => simp [hn]
    | none => simp [hn]
  | removeCard n w =>
    unfold applyCMOp removeCard specPrecondFails
    cases hn : st n with
    | none => simp [hn]
    | some si =>
      simp only [hn]
      by_cases hw : (si.cards w).isNone
      · rw [if_pos hw]
        simp [Option.isNone_iff_eq_none.mp hw]
      · rw [if_neg hw]
        simp
        intro hc
        rw [hc] at hw
        exact hw rfl
  | editCard n w nw na =>
    unfold applyCMOp editCard specPrecondFails
    cases hn : st n with
    | none => simp [hn]
    | some si =>
      simp only [hn]
      by_cases hw : (si.cards w).isNone
      · rw [if_pos hw]
        simp [Option.isNone_iff_eq_none.mp hw]
      · rw [if_neg hw]
        split
        · simp
          intro hc
          rw [hc] at hw
          exact hw rfl
        · split
          · simp
            intro hc
            rw [hc] at hw
            exact hw rfl
          · simp
            intro hc
            rw [hc] at hw
            exact hw rfl
  | updateSchedule n w nr lvl => exact hl.elim

/-- Witness for claim C10: `create_set` on the fresh store. -/
theorem claim_C10_witness :
    (((applyCMOp (.createSet "a" "") cmEmpty).2.1 = false) ↔
      specPrecondFails (.createSet "a" "") cmEmpty) ∧
    ((applyCMOp (.createSet "a" "") cmEmpty).2.1 = false →
      (applyCMOp (.createSet "a" "") cmEmpty).1 = cmEmpty ∧
      (applyCMOp (.createSet "a" "") cmEmpty).2.2 = false) :=
  claim_C10_false_iff_precondition (.createSet "a" "") cmEmpty trivial

end Flashcards
